import Mathlib

/-!
Verification of the Scheduling & Multi-Platform Publishing Pipeline of the
celai repository (AI_Automation_Agent/modules/blog_automation).

The Python modules blog_scheduler.py, content_publisher.py and
blog_generator.py are shallowly embedded below.  External collaborators
(the OpenAI generation call, the per-platform network calls, MongoDB, the
wall clock and random.choice) are abstracted as oracle parameters; every
piece of control flow that belongs to the repository itself is translated
directly from the source.  Python exceptions are modelled with Except:
a .error value is a raised exception carrying str(e), and a try/except
block is a match on that value.  Mutable state (self.stats and the blog
collection) is passed explicitly.
-/

namespace BlogAuto

/-! ## Python string primitives

Python string operations are modelled structurally over the character list
of the string so that all definitions reduce.  python str.strip and
str.lower are Unicode-aware; the models below cover the ASCII behaviour,
which is the only behaviour exercised by the pipeline's own literals. -/

/-- python str.strip with no arguments: remove leading and trailing
whitespace. -/
def pyStrip (s : String) : String :=
  String.mk (((s.toList.dropWhile Char.isWhitespace).reverse.dropWhile
    Char.isWhitespace).reverse)

/-- Helper for pySplitWs: accumulate maximal runs of non-whitespace
characters. -/
def splitWsAux : List Char → List Char → List String
  | [], acc => if acc.isEmpty then [] else [String.mk acc.reverse]
  | c :: rest, acc =>
    if c.isWhitespace then
      if acc.isEmpty then splitWsAux rest []
      else String.mk acc.reverse :: splitWsAux rest []
    else splitWsAux rest (c :: acc)

/-- python str.split with no arguments: split on whitespace runs,
discarding empty pieces. -/
def pySplitWs (s : String) : List String :=
  splitWsAux s.toList []

/-- Split a character list on a single separator character; python
str.split(sep) semantics (keeps empty pieces). -/
def splitCharList (sep : Char) : List Char → List (List Char)
  | [] => [[]]
  | c :: rest =>
    if c = sep then [] :: splitCharList sep rest
    else
      match splitCharList sep rest with
      | [] => [[c]]
      | h :: t => (c :: h) :: t

/-- python str.split('\n') as used by the content-processing helpers. -/
def pySplitLines (s : String) : List String :=
  (splitCharList '\n' s.toList).map String.mk

/-- python sep.join(pieces) for a one-character separator. -/
def joinChar (sep : Char) : List String → String
  | [] => ""
  | [l] => l
  | l :: rest => l ++ String.mk [sep] ++ joinChar sep rest

/-- python str.rfind(ch): code-point index of the last occurrence of the
character, -1 when absent. -/
def pyRfindChar (s : String) (c : Char) : Int :=
  match s.toList.reverse.findIdx? (fun x => x = c) with
  | none => -1
  | some i => (s.toList.length : Int) - 1 - (i : Int)

/-- python str.lower restricted to ASCII letters. -/
def pyLower (s : String) : String :=
  String.mk (s.toList.map Char.toLower)

/-- Decimal value of a digit string (the strings fed to it are already
checked to be all digits). -/
def digitsToNat (l : List Char) : Nat :=
  l.foldl (fun n c => n * 10 + (c.toNat - 48)) 0

/-! ## content_publisher.py : publishers and PublisherManager -/

/-- The result dict built by a publisher's publish_post method or by the
PublisherManager loop.  Only the two fields the pipeline inspects are
modelled: the success flag and the error message ('error' key absent is
none). -/
structure PResult where
  success : Bool
  error : Option String := none
  deriving Repr, DecidableEq

/-- A publisher instance registered in PublisherManager.publishers.  The
four known adapter classes of content_publisher.py each carry the
behaviour of their publish_post network call, abstracted as an Except
value: .ok r is a returned result dict, .error e a raised exception with
message e.  otherType stands for a registered object of any class other
than the four known ones; it also carries a would-be publish behaviour so
that theorems can state that this behaviour is never consulted. -/
inductive Publisher where
  | wordpress (publish_post : Except String PResult)
  | medium (publish_post : Except String PResult)
  | nextjs (publish_post : Except String PResult)
  | custom (publish_post : Except String PResult)
  | otherType (publish_post : Except String PResult)
  deriving Repr

/-- The isinstance dispatch of PublisherManager.publish_to_all
(content_publisher.py lines 826-835): each of the four known classes has
its publish_post invoked; any other type is mapped to the fixed
'Unknown publisher type' failure dict without a call. -/
def dispatch (p : Publisher) : Except String PResult :=
  match p with
  | .wordpress b => b
  | .medium b => b
  | .nextjs b => b
  | .custom b => b
  | .otherType _ => .ok { success := false, error := some "Unknown publisher type" }

/-- Whether the isinstance dispatch reaches a publish_post call (network
I/O) for this publisher. -/
def isKnownType : Publisher → Bool
  | .otherType _ => false
  | _ => true

/-- The inner try/except of the publish_to_all loop: a raising publish
call is caught and recorded as a failure dict carrying str(e). -/
def attemptPublish (p : Publisher) : PResult :=
  match dispatch p with
  | .ok result => result
  | .error e => { success := false, error := some e }

/-- The for-loop of PublisherManager.publish_to_all over the target
platform names, instrumented: alongside the results dict (kept as an
ordered association list, matching insertion order of the Python dict) it
returns the list of platform names whose publish_post was actually
invoked.  The plain function below projects the first component. -/
def publishLoop (publishers : List (String × Publisher)) :
    List String → List (String × PResult) × List String
  | [] => ([], [])
  | platform_name :: rest =>
    let tail := publishLoop publishers rest
    match publishers.lookup platform_name with
    | some publisher =>
      ((platform_name, attemptPublish publisher) :: tail.fst,
        if isKnownType publisher then platform_name :: tail.snd else tail.snd)
    | none =>
      ((platform_name,
          { success := false, error := some "Publisher not configured" }) :: tail.fst,
        tail.snd)

/-- Resolution of the target platform list: the python expression
platforms or list(self.publishers.keys()) treats both None and an empty
list as absent and falls back to every registered name. -/
def targetPlatforms (publishers : List (String × Publisher))
    (platforms : Option (List String)) : List String :=
  match platforms with
  | none => publishers.map Prod.fst
  | some ps => if ps.isEmpty then publishers.map Prod.fst else ps

/-- PublisherManager.publish_to_all (content_publisher.py lines 801-852).
title, content and tags flow only into the abstracted per-publisher
behaviours, so they are not parameters of the model. -/
def publish_to_all (publishers : List (String × Publisher))
    (platforms : Option (List String)) : List (String × PResult) :=
  (publishLoop publishers (targetPlatforms publishers platforms)).fst

/-- The platform names for which publish_to_all performs network I/O. -/
def invokedPlatforms (publishers : List (String × Publisher))
    (platforms : Option (List String)) : List String :=
  (publishLoop publishers (targetPlatforms publishers platforms)).snd

/-- The pointwise value of the results dict for one platform name; used to
state that the loop treats every name independently. -/
def resultEntry (publishers : List (String × Publisher)) (name : String) : PResult :=
  match publishers.lookup name with
  | some publisher => attemptPublish publisher
  | none => { success := false, error := some "Publisher not configured" }

/-! ## blog_generator.py : BlogGenerator -/

/-- The payload dict produced by BlogGenerator._generate_content (the
OpenAI call), before post-processing. -/
structure BlogData where
  title : String
  content : String
  tags : List String
  meta_description : String
  word_count : Nat
  deriving Repr, DecidableEq

/-- The processed blog dict returned by BlogGenerator._process_blog_content
and stored by the scheduler.  created_at carries the abstract clock value
that models datetime.now().isoformat(); the three series_* fields are the
keys added by generate_blog_series (absent, i.e. none, for single posts). -/
structure ProcessedBlog where
  title : String
  content : String
  tags : List String
  meta_description : String
  word_count : Nat
  slug : String
  created_at : Nat
  topic : String
  is_auto_generated : Bool
  status : String
  series_position : Option Nat := none
  series_topic : Option String := none
  series_slug : Option String := none
  deriving Repr, DecidableEq

/-- The heading test of BlogGenerator._ensure_heading_structure: a
stripped line is promoted to an H2 heading when it is non-empty, longer
than 10 and shorter than 100 characters, does not already start with
markdown syntax and ends with a colon. -/
def headingCond (line : String) : Bool :=
  !line.toList.isEmpty && decide (10 < line.toList.length) &&
    decide (line.toList.length < 100) &&
    !(line.toList.head? == some '#') && !(line.toList.head? == some '-') &&
    !(line.toList.head? == some '*') && (line.toList.reverse.head? == some ':')

/-- BlogGenerator._ensure_heading_structure (blog_generator.py lines
197-217): every line is stripped; lines passing the heading test are
prefixed with '## '. -/
def ensure_heading_structure (content : String) : String :=
  joinChar '\n' ((pySplitLines content).map (fun l =>
    let line := pyStrip l
    if headingCond line then "## " ++ line else line))

/-- BlogGenerator._trim_content (blog_generator.py lines 219-237).  The
float comparison end_pos > len(trimmed_text) * 0.8 is modelled exactly as
the rational comparison 5 * end_pos > 4 * len(trimmed_text). -/
def trim_content (content : String) (max_words : Nat) : String :=
  let words := pySplitWs content
  if words.length ≤ max_words then content
  else
    let trimmed_text := joinChar ' ' (words.take max_words)
    let end_pos := max (pyRfindChar trimmed_text '.')
      (max (pyRfindChar trimmed_text '!') (pyRfindChar trimmed_text '?'))
    if 5 * end_pos > 4 * (trimmed_text.toList.length : Int) then
      String.mk (trimmed_text.toList.take (end_pos + 1).toNat)
    else trimmed_text ++ "..."

/-- A character kept by the first regex of _generate_slug
(everything outside a-z, 0-9, whitespace and hyphen is removed; the input
is already lowercased). -/
def slugKeep (c : Char) : Bool :=
  c.isAlphanum || c.isWhitespace || c = '-'

/-- Helper for collapseRuns: the flag records whether the previous kept
character came from a hyphen/whitespace run already emitted as '-'. -/
def collapseRunsAux : Bool → List Char → List Char
  | _, [] => []
  | inRun, c :: rest =>
    if c = '-' || c.isWhitespace then
      if inRun then collapseRunsAux true rest
      else '-' :: collapseRunsAux true rest
    else c :: collapseRunsAux false rest

/-- The second regex of _generate_slug: each maximal run of hyphens and
whitespace collapses to a single hyphen. -/
def collapseRuns (l : List Char) : List Char := collapseRunsAux false l

/-- BlogGenerator._generate_slug (blog_generator.py lines 239-251). -/
def generate_slug (title : String) : String :=
  let chars := (pyLower title).toList.filter slugKeep
  let collapsed := collapseRuns chars
  String.mk (((collapsed.dropWhile (fun c => c = '-')).reverse.dropWhile
    (fun c => c = '-')).reverse)

/-- BlogGenerator._process_blog_content (blog_generator.py lines 165-195):
strips and heading-normalizes the content, recomputes the word count from
the processed content (capping content and count at
settings.BLOG_MAX_LENGTH, the blog_max_length parameter), regenerates the
slug and stamps draft status.  All other keys of the generator payload are
carried over unchanged - in particular the generator's own word_count
value is overwritten. -/
def process_blog_content (blog_max_length : Nat) (now : Nat)
    (blog_data : BlogData) (topic : String) : ProcessedBlog :=
  let content0 := ensure_heading_structure (pyStrip blog_data.content)
  let wc0 := (pySplitWs content0).length
  let content :=
    if wc0 > blog_max_length then trim_content content0 blog_max_length else content0
  let word_count := if wc0 > blog_max_length then blog_max_length else wc0
  { title := blog_data.title, content := content, tags := blog_data.tags,
    meta_description := blog_data.meta_description, word_count := word_count,
    slug := generate_slug blog_data.title, created_at := now, topic := topic,
    is_auto_generated := true, status := "draft" }

/-- BlogGenerator.generate_blog (blog_generator.py lines 48-83): validates
the topic (an all-whitespace topic raises ValueError), calls the
OpenAI-backed _generate_content - abstracted as the oracle gen, whose
.error values are raised exceptions - and post-processes the payload.
Any exception is logged and re-raised.  The style fallback only alters the
prompt inside gen and has no separate observable effect. -/
def generate_blog (gen : String → Nat → Except String BlogData)
    (blog_max_length : Nat) (now : Nat) (topic : String) (max_words : Nat) :
    Except String ProcessedBlog :=
  if pyStrip topic = "" then .error "Topic cannot be empty"
  else
    match gen topic max_words with
    | .error e => .error e
    | .ok blog_data => .ok (process_blog_content blog_max_length now blog_data topic)

/-- The series slug main_topic.lower().replace(' ', '-') + "-part-" + i
of the i-th series post. -/
def seriesSlug (main_topic : String) (i : Nat) : String :=
  String.mk ((pyLower main_topic).toList.map (fun c => if c = ' ' then '-' else c)) ++
    "-part-" ++ toString i

/-- The series metadata keys added to the i-th post (1-based) by
BlogGenerator.generate_blog_series. -/
def addSeriesMeta (main_topic : String) (i : Nat) (b : ProcessedBlog) : ProcessedBlog :=
  { b with
    series_position := some i
    series_topic := some main_topic
    series_slug := some (seriesSlug main_topic i) }

/-- The loop inside BlogGenerator.generate_blog_series: posts are
generated strictly in order and the first raising generate_blog call
aborts the whole series (the surrounding except clause logs and
re-raises).  i is the 1-based series position. -/
def seriesGenLoop (gen : String → Nat → Except String BlogData)
    (blog_max_length : Nat) (now : Nat) (main_topic : String)
    (series_max_words : Nat) (i : Nat) :
    List String → Except String (List ProcessedBlog)
  | [] => .ok []
  | subtopic :: rest =>
    match generate_blog gen blog_max_length now subtopic series_max_words with
    | .error e => .error e
    | .ok blog_post =>
      match seriesGenLoop gen blog_max_length now main_topic series_max_words
          (i + 1) rest with
      | .error e => .error e
      | .ok others => .ok (addSeriesMeta main_topic i blog_post :: others)

/-- BlogGenerator.generate_blog_series (blog_generator.py lines 253-291).
The series plan comes from _generate_series_plan, which never raises (it
falls back to _generate_simple_series_plan on any failure) and is
abstracted as the oracle plan.  The per-post word budget
int(settings.BLOG_MAX_LENGTH * 0.8) is modelled as 4 * blog_max_length / 5. -/
def generator_generate_blog_series (gen : String → Nat → Except String BlogData)
    (plan : String → Nat → List String) (blog_max_length : Nat) (now : Nat)
    (main_topic : String) (num_posts : Nat) : Except String (List ProcessedBlog) :=
  seriesGenLoop gen blog_max_length now main_topic (4 * blog_max_length / 5) 1
    (plan main_topic num_posts)

/-! ## blog_scheduler.py : BlogScheduler -/

/-- The BlogScheduler.stats dict, holding the pipeline counters. -/
structure Stats where
  total_generated : Nat
  total_published : Nat
  failed_generations : Nat
  failed_publications : Nat
  last_generation : Option Nat := none
  last_publication : Option Nat := none
  deriving Repr, DecidableEq

/-- The zero-valued statistics the scheduler starts from when no saved
state exists. -/
def initStats : Stats :=
  { total_generated := 0, total_published := 0, failed_generations := 0,
    failed_publications := 0 }

/-- The collaborators and configuration one BlogScheduler run interacts
with.  gen abstracts BlogGenerator._generate_content (the OpenAI network
call), plan abstracts BlogGenerator._generate_series_plan (which never
raises), choice abstracts random.choice over a non-empty topic pool in
_select_topic, save abstracts whether collection.insert_one succeeds for a
given record (false models _save_blog_to_database raising after logging),
publishers is the PublisherManager.publishers dict, blog_max_length models
settings.BLOG_MAX_LENGTH and now the wall clock. -/
structure Env where
  gen : String → Nat → Except String BlogData
  plan : String → Nat → List String
  choice : List String → String
  save : ProcessedBlog → Bool
  publishers : List (String × Publisher)
  blog_max_length : Nat
  now : Nat

/-- The built-in fallback topic pool of BlogScheduler._select_topic. -/
def default_topics : List String :=
  ["artificial intelligence", "technology trends", "programming", "web development"]

/-- BlogScheduler._select_topic (blog_scheduler.py lines 425-433):
defaults the pool when empty, then draws with random.choice. -/
def select_topic (choice : List String → String) (topics : List String) : String :=
  if topics.isEmpty then choice default_topics else choice topics

/-- BlogScheduler._save_blog_to_database (blog_scheduler.py lines 453-485),
mongodb branch: inserts the record into the blog_posts collection; on a
storage error the except clause logs and re-raises.  The collection is the
ordered list of stored records; the saved_at stamp is not modelled
separately from created_at. -/
def save_blog_to_database (save : ProcessedBlog → Bool) (db : List ProcessedBlog)
    (blog_data : ProcessedBlog) : Except String (List ProcessedBlog) :=
  if save blog_data then .ok (db ++ [blog_data])
  else .error "Failed to save blog to database"

/-- The dict returned by BlogScheduler._publish_blog.  Fields that a
branch does not set are none, mirroring absent dict keys. -/
structure PublishDict where
  success : Bool
  error : Option String := none
  successful_platforms : Option Nat := none
  total_platforms : Option Nat := none
  results : Option (List (String × PResult)) := none
  deriving Repr, DecidableEq

/-- BlogScheduler._publish_blog (blog_scheduler.py lines 487-516): bails
out when no publisher is configured, otherwise resolves the target list
and fans out through PublisherManager.publish_to_all, reporting success
when the count of successful per-platform results is positive.  The
blog_data fields it forwards flow only into the abstracted publish
behaviours and the except clause is unreachable in the model (nothing in
the try body raises). -/
def publish_blog (publishers : List (String × Publisher))
    (platforms : Option (List String)) : PublishDict :=
  if publishers.isEmpty then
    { success := false, error := some "No publishers configured" }
  else
    let target_platforms := targetPlatforms publishers platforms
    let results := publish_to_all publishers (some target_platforms)
    let successful_publications := (results.filter (fun r => r.snd.success)).length
    { success := decide (successful_publications > 0)
      successful_platforms := some successful_publications
      total_platforms := some target_platforms.length
      results := some results }

/-- The dict returned by BlogScheduler._generate_and_publish_blog:
generation_success True with the publish result and blog data, or
generation_success False with the error string. -/
inductive RunDict where
  | ok (publish_result : PublishDict) (blog_data : ProcessedBlog)
  | failed (error : String)
  deriving Repr, DecidableEq

/-- The generation_success field of the run report. -/
def RunDict.generation_success : RunDict → Bool
  | .ok _ _ => true
  | .failed _ => false

/-- The per-platform results carried by the run report (empty when absent). -/
def RunDict.publishResults : RunDict → List (String × PResult)
  | .ok pr _ => pr.results.getD []
  | .failed _ => []

/-- BlogScheduler._generate_and_publish_blog (blog_scheduler.py lines
220-286), with the mutable state (self.stats and the blog collection)
passed explicitly.  The except clause catches any exception raised in the
try body - in the model exactly the generator call and the database save
can raise - and increments failed_generations.  Note that when
publish_immediately is False the local publish_result stays the initial
failure dict and the subsequent unconditional check still increments
failed_publications. -/
def generate_and_publish_blog (env : Env) (topics : List String) (max_words : Nat)
    (publish_immediately : Bool) (platforms : Option (List String))
    (stats : Stats) (db : List ProcessedBlog) :
    Stats × List ProcessedBlog × RunDict :=
  let topic := select_topic env.choice topics
  match generate_blog env.gen env.blog_max_length env.now topic max_words with
  | .error e =>
    ({ stats with failed_generations := stats.failed_generations + 1 }, db, .failed e)
  | .ok blog_data =>
    match save_blog_to_database env.save db blog_data with
    | .error e =>
      ({ stats with failed_generations := stats.failed_generations + 1 }, db, .failed e)
    | .ok db2 =>
      let stats2 := { stats with
        total_generated := stats.total_generated + 1
        last_generation := some env.now }
      let publish_result :=
        if publish_immediately then publish_blog env.publishers platforms
        else ({ success := false } : PublishDict)
      let stats3 :=
        if publish_result.success then
          { stats2 with
            total_published := stats2.total_published + 1
            last_publication := some env.now }
        else
          { stats2 with failed_publications := stats2.failed_publications + 1 }
      (stats3, db2, .ok publish_result blog_data)

/-- One per-post report of the series run (the dicts collected in the
results list of BlogScheduler._generate_blog_series). -/
structure SeriesPostReport where
  post_number : Nat
  generation_success : Bool
  publish_result : Option PublishDict := none
  error : Option String := none
  deriving Repr, DecidableEq

/-- The dict returned by BlogScheduler._generate_blog_series. -/
inductive SeriesDict where
  | ok (total_posts : Nat) (published_posts : Nat) (results : List SeriesPostReport)
  | failed (error : String)
  deriving Repr, DecidableEq

/-- One iteration of the per-post loop in
BlogScheduler._generate_blog_series (lines 316-352): save the
already-generated post, count it as generated, optionally publish it and
update the publication counters; a raising save is caught by the per-post
except clause, which records a failure report and increments
failed_generations without touching the collection. -/
def seriesPostStep (env : Env) (publish_immediately : Bool)
    (platforms : Option (List String)) (i : Nat) (blog_data : ProcessedBlog)
    (stats : Stats) (db : List ProcessedBlog) (published_count : Nat) :
    Stats × List ProcessedBlog × Nat × SeriesPostReport :=
  match save_blog_to_database env.save db blog_data with
  | .error e =>
    ({ stats with failed_generations := stats.failed_generations + 1 }, db,
      published_count,
      { post_number := i, generation_success := false, error := some e })
  | .ok db2 =>
    let stats2 := { stats with total_generated := stats.total_generated + 1 }
    if publish_immediately then
      let publish_result := publish_blog env.publishers platforms
      if publish_result.success then
        ({ stats2 with total_published := stats2.total_published + 1 }, db2,
          published_count + 1,
          { post_number := i, generation_success := true,
            publish_result := some publish_result })
      else
        ({ stats2 with failed_publications := stats2.failed_publications + 1 }, db2,
          published_count,
          { post_number := i, generation_success := true,
            publish_result := some publish_result })
    else
      (stats2, db2, published_count,
        { post_number := i, generation_success := true })

/-- The full per-post loop of BlogScheduler._generate_blog_series, run in
order over the pre-generated series; no iteration can abort its
successors.  i is the 1-based post number of the first remaining post. -/
def seriesPublishLoop (env : Env) (publish_immediately : Bool)
    (platforms : Option (List String)) (i : Nat) :
    List ProcessedBlog → Stats → List ProcessedBlog → Nat →
    Stats × List ProcessedBlog × Nat × List SeriesPostReport
  | [], stats, db, published_count => (stats, db, published_count, [])
  | blog_data :: rest, stats, db, published_count =>
    let step := seriesPostStep env publish_immediately platforms i blog_data
      stats db published_count
    let tail := seriesPublishLoop env publish_immediately platforms (i + 1) rest
      step.1 step.2.1 step.2.2.1
    (tail.1, tail.2.1, tail.2.2.1, step.2.2.2 :: tail.2.2.2)

/-- BlogScheduler._generate_blog_series (blog_scheduler.py lines
288-369).  The whole series is produced up front by
BlogGenerator.generate_blog_series; when that call raises, the outer
except clause returns series_success False and touches neither the
statistics nor the collection.  Otherwise every post is saved/published by
the per-post loop and last_generation is stamped at the end. -/
def scheduler_generate_blog_series (env : Env) (main_topic : String)
    (num_posts : Nat) (publish_immediately : Bool)
    (platforms : Option (List String)) (stats : Stats)
    (db : List ProcessedBlog) : Stats × List ProcessedBlog × SeriesDict :=
  match generator_generate_blog_series env.gen env.plan env.blog_max_length env.now
      main_topic num_posts with
  | .error e => (stats, db, .failed e)
  | .ok blog_series =>
    let out := seriesPublishLoop env publish_immediately platforms 1 blog_series
      stats db 0
    ({ out.1 with last_generation := some env.now }, out.2.1,
      .ok blog_series.length out.2.2.1 out.2.2.2)

/-- A daily job definition registered by
BlogScheduler.schedule_daily_blog_generation (the closure parameters plus
the schedule time). -/
structure DailyJob where
  topics : List String
  max_words : Nat
  publish_immediately : Bool
  platforms : Option (List String)
  time_str : String
  deriving Repr, DecidableEq

/-- Well-formedness of an "HH:MM" daily time string: two digit pairs
separated by a colon, hours below 24 and minutes below 60.  It is the
concrete acceptance predicate used to instantiate the timeValid oracle in
witnesses and counterexamples; the schedule library (an external
dependency) rejects exactly the strings its own time parser cannot read. -/
def wellFormedHHMM (s : String) : Bool :=
  match splitCharList ':' s.toList with
  | [h, m] =>
    decide (h.length = 2) && decide (m.length = 2) && h.all Char.isDigit &&
      m.all Char.isDigit && decide (digitsToNat h < 24) && decide (digitsToNat m < 60)
  | _ => false

/-- BlogScheduler.schedule_daily_blog_generation (blog_scheduler.py lines
121-154).  schedule.every().day.at(time_str) raising ScheduleValueError on
a malformed time string is modelled through the timeValid oracle; .do
registers the job closure in the library's registry (the jobs list).  The
outer Except models an exception escaping to the caller: the try/except
catches every exception, logs it and returns False, so the result is
always .ok. -/
def schedule_daily_blog_generation (timeValid : String → Bool)
    (jobs : List DailyJob) (topics : List String) (max_words : Nat)
    (publish_immediately : Bool) (platforms : Option (List String))
    (time_str : String) : Except String (Bool × List DailyJob) :=
  if timeValid time_str then
    .ok (true, jobs ++ [{ topics := topics
                          max_words := max_words
                          publish_immediately := publish_immediately
                          platforms := platforms
                          time_str := time_str }])
  else
    .ok (false, jobs)

/-! ## Concrete instances for witnesses and counterexamples -/

/-- A fixed generator payload used by the concrete runs below. -/
def sampleBlogData : BlogData :=
  { title := "T"
    content := "hello world"
    tags := ["t"]
    meta_description := "d"
    word_count := 2 }

/-- A registered publisher whose publish call always succeeds. -/
def alwaysOkPublisher : Publisher := .custom (.ok { success := true })

/-- A registered publisher whose publish call always raises. -/
def alwaysRaisePublisher : Publisher := .wordpress (.error "connection refused")

/-- A concrete environment: the generator always returns sampleBlogData,
saving always succeeds, one always-successful publisher is configured and
the series plan is a fixed three-subtopic list. -/
def envOk : Env :=
  { gen := fun _ _ => .ok sampleBlogData
    plan := fun _ _ => ["s1", "s2", "s3"]
    choice := fun l => l.headD "x"
    save := fun _ => true
    publishers := [("site-a", alwaysOkPublisher)]
    blog_max_length := 1000
    now := 0 }

/-- The record the job body stores when run in envOk on topic "x". -/
def sampleProcessed : ProcessedBlog := process_blog_content 1000 0 sampleBlogData "x"

/-- envOk with a generator that raises on the second series subtopic. -/
def envSeriesFail : Env :=
  { envOk with
    gen := fun topic _ => if topic = "s2" then .error "boom" else .ok sampleBlogData }

/-! ## Helper lemmas about the publish fan-out loop -/

/-- The results dict built by the publish_to_all loop is pointwise: the
entry of each target name depends only on that name's own registration. -/
theorem publishLoop_fst (publishers : List (String × Publisher)) :
    ∀ names : List String,
      (publishLoop publishers names).fst =
        names.map (fun n => (n, resultEntry publishers n))
  | [] => rfl
  | n :: rest => by
    simp only [publishLoop, List.map]
    cases h : publishers.lookup n <;>
      simp [h, resultEntry, publishLoop_fst publishers rest]

/-- publish_to_all as the pointwise image of the resolved target list. -/
theorem publish_to_all_eq_map (publishers : List (String × Publisher))
    (platforms : Option (List String)) :
    publish_to_all publishers platforms =
      (targetPlatforms publishers platforms).map
        (fun n => (n, resultEntry publishers n)) :=
  publishLoop_fst publishers _

/-- Characterization of the invoked-platforms trace: network I/O happens
for a name exactly when it is targeted, registered, and of one of the four
known publisher classes. -/
theorem mem_publishLoop_snd (publishers : List (String × Publisher)) (name : String) :
    ∀ names : List String,
      (name ∈ (publishLoop publishers names).snd ↔
        name ∈ names ∧ ∃ p, publishers.lookup name = some p ∧ isKnownType p = true)
  | [] => by simp [publishLoop]
  | n :: rest => by
    have ih := mem_publishLoop_snd publishers name rest
    simp only [publishLoop]
    cases h : publishers.lookup n with
    | none =>
      simp only [List.mem_cons]
      constructor
      · intro hmem
        rcases ih.mp hmem with ⟨hrest, hE⟩
        exact ⟨Or.inr hrest, hE⟩
      · rintro ⟨hor, p, hp, hk⟩
        rcases hor with heq | hrest
        · rw [heq, h] at hp
          cases hp
        · exact ih.mpr ⟨hrest, p, hp, hk⟩
    | some publisher =>
      dsimp only
      by_cases hk : isKnownType publisher = true
      · rw [if_pos hk]
        simp only [List.mem_cons]
        by_cases hn : name = n
        · subst hn
          constructor
          · intro _
            exact ⟨Or.inl rfl, publisher, h, hk⟩
          · intro _
            exact Or.inl rfl
        · constructor
          · intro hmem
            rcases hmem with heq | hmem
            · exact absurd heq hn
            · rcases ih.mp hmem with ⟨hrest, hE⟩
              exact ⟨Or.inr hrest, hE⟩
          · rintro ⟨hor, hE⟩
            rcases hor with heq | hrest
            · exact absurd heq hn
            · exact Or.inr (ih.mpr ⟨hrest, hE⟩)
      · rw [if_neg hk]
        simp only [List.mem_cons]
        constructor
        · intro hmem
          rcases ih.mp hmem with ⟨hrest, hE⟩
          exact ⟨Or.inr hrest, hE⟩
        · rintro ⟨hor, p, hp, hkp⟩
          rcases hor with heq | hrest
          · subst heq
            rw [h] at hp
            cases hp
            exact absurd hkp hk
          · exact ih.mpr ⟨hrest, p, hp, hkp⟩

/-- At least one entry of an association list satisfies a Boolean test on
the result exactly when the filtered list is non-empty. -/
theorem filter_success_length_pos (l : List (String × PResult)) :
    0 < (l.filter (fun r => r.2.success)).length ↔
      ∃ r ∈ l, r.2.success = true := by
  induction l with
  | nil => simp
  | cons x xs ih =>
    by_cases hx : x.2.success = true <;> simp [List.filter_cons, hx, ih]

/-! ## Claims -/

/-- C3: an exception raised by one publisher's publish call is caught and
recorded as a success=false PublishResult carrying str(e) for that
platform only, and the fan-out still gives every platform in the target
list its own entry, computed from that platform's registration alone (the
results dict is the pointwise image of the target list), so no publisher
failure aborts the sibling attempts or escapes publish_to_all. -/
theorem publish_exception_isolated (publishers : List (String × Publisher))
    (platforms : Option (List String)) :
    (publish_to_all publishers platforms =
      (targetPlatforms publishers platforms).map
        (fun n => (n, resultEntry publishers n))) ∧
    ∀ name p e, publishers.lookup name = some p → dispatch p = .error e →
      resultEntry publishers name = { success := false, error := some e } := by
  refine ⟨publish_to_all_eq_map publishers platforms, ?_⟩
  intro name p e hlk hdisp
  unfold resultEntry
  rw [hlk]
  dsimp only
  unfold attemptPublish
  rw [hdisp]

/-- Witness for C3: in a registry holding one always-raising WordPress
publisher and one always-succeeding custom publisher, the raising
publisher's entry records its exception message while the sibling entry is
computed normally. -/
theorem publish_exception_isolated_witness :
    (publish_to_all [("site-b", alwaysRaisePublisher), ("site-a", alwaysOkPublisher)]
        (some ["site-b", "site-a"]) =
      (targetPlatforms [("site-b", alwaysRaisePublisher), ("site-a", alwaysOkPublisher)]
          (some ["site-b", "site-a"])).map
        (fun n => (n, resultEntry
          [("site-b", alwaysRaisePublisher), ("site-a", alwaysOkPublisher)] n))) ∧
    resultEntry [("site-b", alwaysRaisePublisher), ("site-a", alwaysOkPublisher)]
        "site-b" = { success := false, error := some "connection refused" } :=
  ⟨(publish_exception_isolated
      [("site-b", alwaysRaisePublisher), ("site-a", alwaysOkPublisher)]
      (some ["site-b", "site-a"])).1,
    (publish_exception_isolated
      [("site-b", alwaysRaisePublisher), ("site-a", alwaysOkPublisher)]
      (some ["site-b", "site-a"])).2 "site-b" alwaysRaisePublisher
      "connection refused" rfl rfl⟩

/-- C2 counterexample: publishing to the never-registered name "site-c"
produces the entry success=false with error string
"Publisher not configured" - not the string "not configured" stated by the
claim and the spec. -/
theorem not_configured_counterexample :
    ((publish_to_all [("site-a", alwaysOkPublisher)]
        (some ["site-c", "site-a"])).lookup "site-c" =
      some { success := false, error := some "Publisher not configured" }) ∧
    ¬ ((publish_to_all [("site-a", alwaysOkPublisher)]
        (some ["site-c", "site-a"])).lookup "site-c" =
      some { success := false, error := some "not configured" }) := by
  decide

/-- C2 amended: a target name absent from the registry yields the entry
success=false with error "Publisher not configured", no network I/O is
performed for that name, and every name in the same call still receives
the entry computed from its own registration alone. -/
theorem unknown_platform_entry (publishers : List (String × Publisher))
    (platforms : List String) (name : String)
    (hne : platforms ≠ []) (hmem : name ∈ platforms)
    (hnone : publishers.lookup name = none) :
    ((name, ({ success := false, error := some "Publisher not configured" } : PResult)) ∈
        publish_to_all publishers (some platforms)) ∧
    name ∉ invokedPlatforms publishers (some platforms) ∧
    publish_to_all publishers (some platforms) =
      platforms.map (fun n => (n, resultEntry publishers n)) := by
  have htp : targetPlatforms publishers (some platforms) = platforms := by
    cases platforms with
    | nil => exact absurd rfl hne
    | cons a l => rfl
  have hmap := publish_to_all_eq_map publishers (some platforms)
  rw [htp] at hmap
  refine ⟨?_, ?_, hmap⟩
  · rw [hmap]
    refine List.mem_map.mpr ⟨name, hmem, ?_⟩
    unfold resultEntry
    rw [hnone]
  · intro hin
    unfold invokedPlatforms at hin
    rcases (mem_publishLoop_snd publishers name _).mp hin with ⟨_, p, hp, _⟩
    rw [hnone] at hp
    cases hp

/-- Witness for the C2 amended claim at a concrete registry and call. -/
theorem unknown_platform_entry_witness :
    (("site-c", ({ success := false, error := some "Publisher not configured" } : PResult)) ∈
        publish_to_all [("site-a", alwaysOkPublisher)] (some ["site-c", "site-a"])) ∧
    "site-c" ∉ invokedPlatforms [("site-a", alwaysOkPublisher)]
        (some ["site-c", "site-a"]) ∧
    publish_to_all [("site-a", alwaysOkPublisher)] (some ["site-c", "site-a"]) =
      ["site-c", "site-a"].map
        (fun n => (n, resultEntry [("site-a", alwaysOkPublisher)] n)) :=
  unknown_platform_entry [("site-a", alwaysOkPublisher)] ["site-c", "site-a"]
    "site-c" (by decide) (by decide) rfl

/-- A registered object of a class other than the four known adapter
classes, used to witness C10. -/
def oddPublisher : Publisher := .otherType (.ok { success := true })

/-- C10: a registered publisher whose concrete type is none of the four
known adapter classes gets the entry success=false with error
"Unknown publisher type" - uniformly in its would-be publish behaviour b -
and its publish method is never invoked, because the isinstance dispatch
only reaches publish_post for the four known classes. -/
theorem unknown_type_entry (publishers : List (String × Publisher))
    (platforms : Option (List String)) (name : String) (b : Except String PResult)
    (hmem : name ∈ targetPlatforms publishers platforms)
    (hlk : publishers.lookup name = some (.otherType b)) :
    ((name, ({ success := false, error := some "Unknown publisher type" } : PResult)) ∈
        publish_to_all publishers platforms) ∧
    name ∉ invokedPlatforms publishers platforms := by
  constructor
  · rw [publish_to_all_eq_map]
    refine List.mem_map.mpr ⟨name, hmem, ?_⟩
    unfold resultEntry
    rw [hlk]
    rfl
  · intro hin
    unfold invokedPlatforms at hin
    rcases (mem_publishLoop_snd publishers name _).mp hin with ⟨_, p, hp, hkp⟩
    rw [hlk] at hp
    cases hp
    cases hkp

/-- Witness for C10: a registry holding only an unrecognized publisher
object, targeted through the default all-platforms resolution. -/
theorem unknown_type_entry_witness :
    (("site-x", ({ success := false, error := some "Unknown publisher type" } : PResult)) ∈
        publish_to_all [("site-x", oddPublisher)] none) ∧
    "site-x" ∉ invokedPlatforms [("site-x", oddPublisher)] none :=
  unknown_type_entry [("site-x", oddPublisher)] none "site-x"
    (.ok { success := true }) (by decide) rfl

/-- C4: the aggregate success reported by BlogScheduler._publish_blog is
true exactly when at least one per-platform PublishResult in the returned
results map has success=true (when no publisher is configured there is no
results map and the aggregate is false). -/
theorem aggregate_success_iff (publishers : List (String × Publisher))
    (platforms : Option (List String)) :
    (publish_blog publishers platforms).success = true ↔
      ∃ r ∈ ((publish_blog publishers platforms).results.getD []),
        r.2.success = true := by
  unfold publish_blog
  by_cases h : publishers.isEmpty
  · simp [h]
  · rw [if_neg h]
    simp only [Option.getD_some]
    rw [decide_eq_true_iff]
    exact filter_success_length_pos _

/-- Every record a successful generate_blog call yields carries draft
status (the status key _process_blog_content stamps). -/
theorem generate_blog_status (gen : String → Nat → Except String BlogData)
    (bml now : Nat) (topic : String) (mw : Nat) (blog : ProcessedBlog)
    (h : generate_blog gen bml now topic mw = .ok blog) : blog.status = "draft" := by
  unfold generate_blog at h
  by_cases ht : pyStrip topic = ""
  · rw [if_pos ht] at h
    cases h
  · rw [if_neg ht] at h
    cases hg : gen topic mw with
    | error e =>
      rw [hg] at h
      cases h
    | ok bd =>
      rw [hg] at h
      cases h
      rfl

/-- C1 counterexample: a job-body run against one configured platform in
which the publish fan-out yields k = 1 successful PublishResult, yet the
record stored by the run keeps status "draft" - the claimed transition to
"published" on k >= 1 never happens (the pipeline never writes the status
back after publishing). -/
theorem record_status_counterexample :
    (((generate_and_publish_blog envOk ["x"] 800 true none initStats
        []).2.2.publishResults.filter (fun r => r.2.success)).length = 1) ∧
    ((generate_and_publish_blog envOk ["x"] 800 true none initStats []).2.1.map
        ProcessedBlog.status = ["draft"]) ∧
    ¬ ((generate_and_publish_blog envOk ["x"] 800 true none initStats []).2.1.map
        ProcessedBlog.status = ["published"]) := by
  decide

/-- C1 amended: every record the job body stores has status "draft"
regardless of how many per-platform publish successes follow; per-platform
success only affects the statistics counters, never the stored record's
status field. -/
theorem stored_record_status_draft (env : Env) (topics : List String)
    (max_words : Nat) (publish_immediately : Bool)
    (platforms : Option (List String)) (stats : Stats) (db : List ProcessedBlog)
    (r : ProcessedBlog)
    (hr : r ∈ (generate_and_publish_blog env topics max_words publish_immediately
        platforms stats db).2.1) :
    r ∈ db ∨ r.status = "draft" := by
  unfold generate_and_publish_blog at hr
  dsimp only at hr
  cases hgen : generate_blog env.gen env.blog_max_length env.now
      (select_topic env.choice topics) max_words with
  | error e =>
    rw [hgen] at hr
    exact Or.inl hr
  | ok blog =>
    rw [hgen] at hr
    dsimp only at hr
    unfold save_blog_to_database at hr
    by_cases hs : env.save blog = true
    · rw [if_pos hs] at hr
      dsimp only at hr
      rcases List.mem_append.mp hr with hdb | hnew
      · exact Or.inl hdb
      · right
        rw [List.mem_singleton.mp hnew]
        exact generate_blog_status env.gen env.blog_max_length env.now
          (select_topic env.choice topics) max_words blog hgen
    · rw [if_neg hs] at hr
      exact Or.inl hr

/-- Witness for the C1 amended claim: the concrete run of
record_status_counterexample stores exactly sampleProcessed, which is not
in the (empty) prior collection, so the theorem forces its draft status. -/
theorem stored_record_status_draft_witness :
    (sampleProcessed ∈ (generate_and_publish_blog envOk ["x"] 800 true none
        initStats []).2.1) ∧
    (sampleProcessed ∈ ([] : List ProcessedBlog) ∨ sampleProcessed.status = "draft") :=
  ⟨by decide,
    stored_record_status_draft envOk ["x"] 800 true none initStats []
      sampleProcessed (by decide)⟩

/-- C6: a job-body run with publish_immediately=False whose generation and
save succeed increments total_generated, leaves total_published at 0 and
leaves the record in draft - but, contrary to the claim and to spec
section 4.1.1 step 4, it also increments failed_publications by 1 even
though no publish was attempted: the initial publish_result failure dict
is checked unconditionally. -/
theorem draft_run_increments_failed_publications :
    ((generate_and_publish_blog envOk ["x"] 800 false none initStats []).1 =
      { total_generated := 1
        total_published := 0
        failed_generations := 0
        failed_publications := 1
        last_generation := some 0 }) ∧
    ((generate_and_publish_blog envOk ["x"] 800 false none initStats []).2.1.map
        ProcessedBlog.status = ["draft"]) := by
  decide

/-- Counting lemma for one iteration of the series per-post loop: each
post increments exactly one of total_generated / failed_generations. -/
theorem seriesPostStep_counts (env : Env) (pubNow : Bool)
    (platforms : Option (List String)) (i : Nat) (blog : ProcessedBlog)
    (stats : Stats) (db : List ProcessedBlog) (pc : Nat) :
    ((seriesPostStep env pubNow platforms i blog stats db pc).1.total_generated +
        (seriesPostStep env pubNow platforms i blog stats db pc).1.failed_generations =
      stats.total_generated + stats.failed_generations + 1) ∧
    stats.total_generated ≤
      (seriesPostStep env pubNow platforms i blog stats db pc).1.total_generated ∧
    stats.failed_generations ≤
      (seriesPostStep env pubNow platforms i blog stats db pc).1.failed_generations := by
  unfold seriesPostStep
  refine ⟨?_, ?_, ?_⟩ <;>
  · repeat' split
    all_goals try dsimp only
    all_goals repeat' split
    all_goals try dsimp only
    all_goals omega

/-- The series per-post loop never decreases total_generated or
failed_generations. -/
theorem seriesPublishLoop_monotone (env : Env) (pubNow : Bool)
    (platforms : Option (List String)) :
    ∀ (posts : List ProcessedBlog) (i : Nat) (stats : Stats)
      (db : List ProcessedBlog) (pc : Nat),
      stats.total_generated ≤
        (seriesPublishLoop env pubNow platforms i posts stats db pc).1.total_generated ∧
      stats.failed_generations ≤
        (seriesPublishLoop env pubNow platforms i posts stats db pc).1.failed_generations
  | [], _, _, _, _ => ⟨le_refl _, le_refl _⟩
  | blog :: rest, i, stats, db, pc => by
    have hstep := seriesPostStep_counts env pubNow platforms i blog stats db pc
    have ih := seriesPublishLoop_monotone env pubNow platforms rest (i + 1)
      (seriesPostStep env pubNow platforms i blog stats db pc).1
      (seriesPostStep env pubNow platforms i blog stats db pc).2.1
      (seriesPostStep env pubNow platforms i blog stats db pc).2.2.1
    simp only [seriesPublishLoop]
    exact ⟨le_trans hstep.2.1 ih.1, le_trans hstep.2.2 ih.2⟩

/-- Counting lemma for one job-body run: each invocation increments
exactly one of total_generated / failed_generations. -/
theorem gapb_counts (env : Env) (topics : List String) (max_words : Nat)
    (pubNow : Bool) (platforms : Option (List String)) (stats : Stats)
    (db : List ProcessedBlog) :
    ((generate_and_publish_blog env topics max_words pubNow platforms stats
        db).1.total_generated +
        (generate_and_publish_blog env topics max_words pubNow platforms stats
          db).1.failed_generations =
      stats.total_generated + stats.failed_generations + 1) ∧
    stats.total_generated ≤
      (generate_and_publish_blog env topics max_words pubNow platforms stats
        db).1.total_generated ∧
    stats.failed_generations ≤
      (generate_and_publish_blog env topics max_words pubNow platforms stats
        db).1.failed_generations := by
  unfold generate_and_publish_blog
  dsimp only
  refine ⟨?_, ?_, ?_⟩ <;>
  · repeat' split
    all_goals try dsimp only
    all_goals omega

/-- C7 counterexample: one series invocation whose batched generation
fails reaches the generation step (the run report carries the generator's
exception), yet neither total_generated nor failed_generations moves:
their sum stays 0 instead of counting this invocation. -/
theorem stats_sum_counterexample :
    ((scheduler_generate_blog_series envSeriesFail "T" 3 false none initStats
        []).1.total_generated = 0) ∧
    ((scheduler_generate_blog_series envSeriesFail "T" 3 false none initStats
        []).1.failed_generations = 0) ∧
    ((scheduler_generate_blog_series envSeriesFail "T" 3 false none initStats
        []).2.2 = SeriesDict.failed "boom") := by
  decide

/-- C7 amended: total_generated and failed_generations are each
non-decreasing under both the single job body and the series run, and
every single job-body invocation increments exactly one of the two (their
sum grows by exactly 1); a series invocation whose batched generation
raises increments neither. -/
theorem stats_monotone_and_sum (env : Env) (topics : List String)
    (max_words : Nat) (pubNow : Bool) (platforms : Option (List String))
    (main_topic : String) (num_posts : Nat) (pubNow2 : Bool)
    (platforms2 : Option (List String)) (stats : Stats)
    (db db2 : List ProcessedBlog) :
    ((generate_and_publish_blog env topics max_words pubNow platforms stats
        db).1.total_generated +
        (generate_and_publish_blog env topics max_words pubNow platforms stats
          db).1.failed_generations =
      stats.total_generated + stats.failed_generations + 1) ∧
    stats.total_generated ≤
      (generate_and_publish_blog env topics max_words pubNow platforms stats
        db).1.total_generated ∧
    stats.failed_generations ≤
      (generate_and_publish_blog env topics max_words pubNow platforms stats
        db).1.failed_generations ∧
    stats.total_generated ≤
      (scheduler_generate_blog_series env main_topic num_posts pubNow2 platforms2
        stats db2).1.total_generated ∧
    stats.failed_generations ≤
      (scheduler_generate_blog_series env main_topic num_posts pubNow2 platforms2
        stats db2).1.failed_generations := by
  have hg := gapb_counts env topics max_words pubNow platforms stats db
  refine ⟨hg.1, hg.2.1, hg.2.2, ?_, ?_⟩ <;>
  · unfold scheduler_generate_blog_series
    split
    · exact le_refl _
    · dsimp only
      first
        | exact (seriesPublishLoop_monotone env pubNow2 platforms2 _ 1 stats db2 0).1
        | exact (seriesPublishLoop_monotone env pubNow2 platforms2 _ 1 stats db2 0).2

/-- C5 counterexample: a 3-post series run whose generator raises on the
second subtopic returns series_success=false with no per-post RunReports
and leaves the statistics (in particular failed_generations) and the
collection untouched - instead of the claimed 3 reports with exactly one
generation failure and failed_generations incremented by 1. -/
theorem series_abort_counterexample :
    scheduler_generate_blog_series envSeriesFail "T" 3 false none initStats [] =
      (initStats, [], SeriesDict.failed "boom") := by
  decide

/-- C5 amended: a generator failure while producing post k aborts the
whole series run - the batched BlogGenerator.generate_blog_series call
re-raises, the scheduler's outer except clause returns series_success
False with the error, no RunReports are produced, and neither the
statistics nor the stored collection change.  (Only save/publish failures
of already-generated posts are isolated per post.) -/
theorem series_generation_failure_aborts (env : Env) (main_topic : String)
    (num_posts : Nat) (publish_immediately : Bool)
    (platforms : Option (List String)) (stats : Stats) (db : List ProcessedBlog)
    (e : String)
    (h : generator_generate_blog_series env.gen env.plan env.blog_max_length env.now
        main_topic num_posts = .error e) :
    scheduler_generate_blog_series env main_topic num_posts publish_immediately
        platforms stats db = (stats, db, .failed e) := by
  unfold scheduler_generate_blog_series
  rw [h]

/-- Witness for the C5 amended claim on a concrete failing series run with
a non-empty prior collection and immediate publishing requested. -/
theorem series_generation_failure_aborts_witness :
    scheduler_generate_blog_series envSeriesFail "T" 3 true none initStats
        [sampleProcessed] = (initStats, [sampleProcessed], SeriesDict.failed "boom") :=
  series_generation_failure_aborts envSeriesFail "T" 3 true none initStats
    [sampleProcessed] "boom" rfl

/-- C8 counterexample: registering a daily job with the malformed time
string "25:99" does not raise any exception to the caller (there is no
InvalidScheduleError type in the code base): the catch-all except clause
makes the call return normally with False, leaving the registry empty. -/
theorem schedule_daily_counterexample :
    (schedule_daily_blog_generation wellFormedHHMM [] ["x", "y"] 800 false none
        "25:99" = Except.ok (false, [])) ∧
    wellFormedHHMM "25:99" = false := by
  exact ⟨rfl, by decide⟩

/-- C8 amended: on a time string the schedule library rejects, the
registration call catches the library's exception, returns False and
leaves the job registry unchanged; no exception reaches the caller. -/
theorem malformed_time_returns_false (timeValid : String → Bool)
    (jobs : List DailyJob) (topics : List String) (max_words : Nat)
    (publish_immediately : Bool) (platforms : Option (List String))
    (time_str : String) (h : timeValid time_str = false) :
    schedule_daily_blog_generation timeValid jobs topics max_words
      publish_immediately platforms time_str = .ok (false, jobs) := by
  unfold schedule_daily_blog_generation
  simp [h]

/-- Witness for the C8 amended claim at the concrete malformed string
"9am" against the HH:MM well-formedness predicate. -/
theorem malformed_time_returns_false_witness :
    schedule_daily_blog_generation wellFormedHHMM [] ["x", "y"] 800 true none
      "9am" = .ok (false, []) :=
  malformed_time_returns_false wellFormedHHMM [] ["x", "y"] 800 true none "9am"
    (by decide)

/-- C9: the word_count stored on the processed record is recomputed by the
pipeline from the body - it equals the whitespace word count of the
stripped, heading-normalized content, capped at settings.BLOG_MAX_LENGTH -
and the whole processed record is unchanged when the generator reports a
different word_count value, so the stored count never depends on the
generator's. -/
theorem word_count_recomputed (blog_max_length now : Nat) (blog_data : BlogData)
    (topic : String) (wc : Nat) :
    ((process_blog_content blog_max_length now blog_data topic).word_count =
      min blog_max_length
        ((pySplitWs (ensure_heading_structure (pyStrip blog_data.content))).length)) ∧
    process_blog_content blog_max_length now { blog_data with word_count := wc }
        topic = process_blog_content blog_max_length now blog_data topic := by
  constructor
  · unfold process_blog_content
    dsimp only
    by_cases h : (pySplitWs (ensure_heading_structure
        (pyStrip blog_data.content))).length > blog_max_length
    · rw [if_pos h, Nat.min_eq_left (Nat.le_of_lt h)]
    · rw [if_neg h, Nat.min_eq_right (Nat.le_of_not_lt h)]
  · rfl

end BlogAuto
